import Mathlib

/-!
Verification development for the prompt-assembly core of
`gpt5_prompt_designer.py` (GPTPrompter).

The program's text pipeline is embedded shallowly:

* `clamp_text` models `re.sub(r'\n{3,}', '\n\n', s).strip()`: every maximal
  run of three or more newline characters is replaced by exactly two (which
  is the same as capping every maximal newline run at two), and then
  leading/trailing whitespace is stripped (`str.strip()` with Python's
  whitespace set).
* `replace_vars` models `re.sub(r"\{([A-Za-z0-9_]+)\}", repl, text)` with
  `repl` looking the captured identifier up in the variable mapping and
  otherwise returning the whole token: a deterministic left-to-right
  single-pass scanner (the regex has no overlapping alternatives, so the
  scanner below is its exact semantics).
* `PromptOptions` mirrors the dataclass of the same name, `build` and the
  `_`-prefixed helpers mirror the methods of `PromptBuilder`.  The model
  fixes `os.linesep = "\n"` (the POSIX value used by the program's string
  code).  Python dictionaries are modelled as association lists with unique
  keys; `str.lower()` is modelled on the ASCII range, which covers every
  string the program lowercases.
-/

/-- Python `str.isspace` / the default character set of `str.strip`,
by Unicode code point. -/
def pyIsSpace (c : Char) : Bool :=
  let n := c.toNat
  (decide (9 ≤ n) && decide (n ≤ 13)) ||
  (decide (28 ≤ n) && decide (n ≤ 31)) ||
  n == 32 || n == 133 || n == 160 || n == 5760 ||
  (decide (8192 ≤ n) && decide (n ≤ 8202)) ||
  n == 8232 || n == 8233 || n == 8239 || n == 8287 || n == 12288

/-- Python `str.strip()` on a list of characters: drop whitespace from the
front, then from the back. -/
def pyStripL (l : List Char) : List Char :=
  ((l.dropWhile pyIsSpace).reverse.dropWhile pyIsSpace).reverse

/-- Python `str.strip()`. -/
def pystrip (s : String) : String :=
  String.mk (pyStripL s.data)

/-- One pass of `re.sub(r'\n{3,}', '\n\n', _)`: scanning left to right with
`seen` newlines read in the current run, every newline past the second of a
run is dropped, so a maximal run of `n ≥ 3` newlines comes out as exactly
two and shorter runs are kept verbatim. -/
def collapseAux : Nat → List Char → List Char
  | _, [] => []
  | seen, c :: cs =>
    if c = '\n' then
      if 2 ≤ seen then collapseAux (seen + 1) cs
      else c :: collapseAux (seen + 1) cs
    else c :: collapseAux 0 cs

/-- `clamp_text` from the source: collapse newline runs of three or more
into two, then strip leading/trailing whitespace. -/
def clamp_text (s : String) : String :=
  String.mk (pyStripL (collapseAux 0 s.data))

/-- Python `str.lower()` restricted to the ASCII range (the program only
lowercases its ASCII enum values). -/
def pyLowerChar (c : Char) : Char :=
  if decide ('A' ≤ c) && decide (c ≤ 'Z') then Char.ofNat (c.toNat + 32) else c

/-- Python `str.lower()` on a whole string. -/
def pyLower (s : String) : String :=
  String.mk (s.data.map pyLowerChar)

/-- The regex character class `[A-Za-z0-9_]`. -/
def isIdentChar (c : Char) : Bool :=
  (decide ('A' ≤ c) && decide (c ≤ 'Z')) ||
  (decide ('a' ≤ c) && decide (c ≤ 'z')) ||
  (decide ('0' ≤ c) && decide (c ≤ '9')) ||
  c == '_'

/-- `dict.get(key, default)` on the variable mapping, modelled as an
association list with unique keys. -/
def getVar : List (String × String) → String → Option String
  | [], _ => none
  | (k, v) :: rest, key => if key = k then some v else getVar rest key

/-- Scanner implementing `re.sub(r"\{([A-Za-z0-9_]+)\}", repl, text)`.
The state is `none` outside any candidate token and `some acc` after an
opening brace with `acc` the identifier characters read so far (reversed).
A match attempt that fails resumes scanning at the character that broke it,
which is exactly where the regex engine retries, since no match can begin
inside `[A-Za-z0-9_]*` text. -/
def rvAux (m : List (String × String)) : Option (List Char) → List Char → List Char
  | none, [] => []
  | some acc, [] => '\x7b' :: acc.reverse
  | none, c :: cs =>
    if c = '\x7b' then rvAux m (some []) cs
    else c :: rvAux m none cs
  | some acc, c :: cs =>
    if isIdentChar c then rvAux m (some (c :: acc)) cs
    else if c = '\x7d' then
      if acc = [] then '\x7b' :: '\x7d' :: rvAux m none cs
      else
        match getVar m (String.mk acc.reverse) with
        | some v => v.data ++ rvAux m none cs
        | none => '\x7b' :: (acc.reverse ++ '\x7d' :: rvAux m none cs)
    else if c = '\x7b' then ('\x7b' :: acc.reverse) ++ rvAux m (some []) cs
    else ('\x7b' :: acc.reverse) ++ c :: rvAux m none cs

/-- `replace_vars` from the source. -/
def replace_vars (text : String) (mapping : List (String × String)) : String :=
  String.mk (rvAux mapping none text.data)

/-- `sep.join(parts)`. -/
def joinWith (sep : String) : List String → String
  | [] => ""
  | [p] => p
  | p :: q :: ps => p ++ sep ++ joinWith sep (q :: ps)

/-- The generator filter `p for p in parts if p.strip()` used by `build`. -/
def keepNonempty : List String → List String
  | [] => []
  | p :: ps => if pystrip p = "" then keepNonempty ps else p :: keepNonempty ps

/-- The loop `if piece.strip(): parts.append(piece.strip())` over the
optional pieces of `build`. -/
def stripPieces : List String → List String
  | [] => []
  | p :: ps => if pystrip p = "" then stripPieces ps else pystrip p :: stripPieces ps

/-- `cons.replace(os.linesep, os.linesep + '- ')` with `os.linesep = "\n"`:
the pattern is the single newline character, so the replacement inserts
`"- "` after every newline. -/
def linesepToBullet : List Char → List Char
  | [] => []
  | c :: cs =>
    if c = '\n' then '\n' :: '-' :: ' ' :: linesepToBullet cs
    else c :: linesepToBullet cs

/-- The `PromptOptions` dataclass, with the dataclass defaults. -/
structure PromptOptions where
  role : String := "General assistant"
  custom_role : String := ""
  task : String := ""
  audience : String := ""
  constraints : String := ""
  delimiters : String := "triple backticks"
  output_format : String := "Plain text"
  json_schema : String := ""
  additional_context : String := ""
  eagerness : String := "Medium"
  reasoning_effort : String := "Default"
  include_tool_preamble : Bool := false
  include_persistence : Bool := false
  include_progress_narration : Bool := false
  include_tool_disambiguation : Bool := false
  tool_context : String := ""
  coding_mode : Bool := false
  include_planning : Bool := false
  planning_snippet : String := ""
  include_apply_patch_instr : Bool := false
  include_tool_defs : Bool := false
  coding_notes : String := ""
  verbosity : String := "Default"
  verbosity_override : String := ""
  markdown_guidance : Bool := false
  ask_brief_rationale : Bool := false
  meta_mode : Bool := false
  meta_prompt : String := ""
  meta_desired : String := ""
  meta_undesired : String := ""
  examples : List (String × String) := []
  «variables» : List (String × String) := []
  include_swe_bench : Bool := false
  include_retail_min_reason : Bool := false
deriving DecidableEq

/-- A fresh `PromptOptions()` record: every field at its default. -/
def defaultOptions : PromptOptions := {}

/-! Fixed sentences from the `PromptBuilder` fragment catalog. -/

def eagerLowS : String :=
  "Agentic eagerness: low. Avoid tangential tool calls. Ask at most one clarifying question only if blocking."

def eagerHighS : String :=
  "Agentic eagerness: high. Be proactive. Decompose the task and use available tools when helpful."

def eagerMedS : String :=
  "Agentic eagerness: medium. Balance proactivity with directness."

def toolPreambleS : String :=
  "Before tools: emit a short tool preamble that restates the goal, the plan, and the next action."

def progressS : String :=
  "During long tasks: include brief progress updates and what remains."

def persistenceS : String :=
  "Agentic persistence: continue until the user\x27s goal is fully achieved. Do not stop early."

def toolRulesHeaderS : String :=
  "Tool instructions: follow these disambiguated tool rules:"

def planningDefaultS : String :=
  "Plan the steps before producing the final answer. Verify each step. Do not yield until all sub-tasks are complete."

def codingModeS : String :=
  "Coding mode: enabled. Prefer small, verifiable steps and runnable outputs."

def applyPatchS : String :=
  "For code edits, prefer unified diffs in an apply_patch block: begin with \x27*** Begin Patch\x27 and end with \x27*** End Patch\x27."

def toolDefsS : String :=
  "Assume standard code tools are available as defined by the host environment. Use them when appropriate."

def sweS : String :=
  "Appendix: When editing code, use an apply_patch block with a unified diff. Verify changes thoroughly and consider hidden tests."

def retailS : String :=
  "Appendix: Retail domain guardrails. Authenticate the user first. Only act for the authenticated user. Before database changes, summarize the action and get explicit confirmation."

def mdS1 : String :=
  "Format the final answer in Markdown where semantically correct. Use inline code, fenced code blocks, lists, and tables appropriately."

def mdS2 : String :=
  "When naming files or code elements, use backticks; use \\( \\) for inline math and \\[ \\] for block math."

def jsonSchemaInstrS : String :=
  "Return a single JSON object that exactly follows this JSON Schema:"

def jsonGenericS : String :=
  "Return a single valid JSON object with keys appropriate to the task. No extra commentary."

def metaInstrS : String :=
  "Optimize the following prompt. Explain what minimal edits or additions would encourage the desired behavior and reduce undesired behavior."

def rationaleS : String :=
  "Begin the final answer with 1-3 concise bullets summarizing key factors. Do not include private chain-of-thought."

/-! The `PromptBuilder` methods, each as a function of the options record. -/

/-- `PromptBuilder._delim`. -/
def _delim (o : PromptOptions) : String × String :=
  let d := o.delimiters
  if d = "triple backticks" then ("```", "```")
  else if d = "triple quotes" then ("\"\"\"", "\"\"\"")
  else if d = "XML tags" then ("<content>", "</content>")
  else ("```", "```")

/-- `PromptBuilder._role_line`. -/
def _role_line (o : PromptOptions) : String :=
  let role := if o.role = "Custom" then pystrip o.custom_role else o.role
  let role := if role = "" then "General assistant" else role
  "You are " ++ role ++ "."

/-- `PromptBuilder._audience_line`. -/
def _audience_line (o : PromptOptions) : String :=
  let aud := pystrip o.audience
  if aud = "" then "" else "Target audience: " ++ aud ++ "."

/-- `PromptBuilder._constraints_block`. -/
def _constraints_block (o : PromptOptions) : String :=
  let cons := clamp_text o.constraints
  if cons = "" then ""
  else "Constraints:\n- " ++ String.mk (linesepToBullet cons.data)

/-- `PromptBuilder._formatting_block`. -/
def _formatting_block (o : PromptOptions) : String :=
  joinWith "\n"
    ((if o.output_format = "Markdown" ∨ o.markdown_guidance = true then [mdS1, mdS2] else [])
      ++ (if o.output_format = "JSON" then
            (if clamp_text o.json_schema = "" then [jsonGenericS]
             else [jsonSchemaInstrS, clamp_text o.json_schema])
          else []))

/-- `PromptBuilder._verbosity_block`. -/
def _verbosity_block (o : PromptOptions) : String :=
  if o.verbosity = "Default" then pystrip o.verbosity_override
  else
    "Verbosity: " ++ pyLower o.verbosity ++ "." ++
      (if pystrip o.verbosity_override = "" then ""
       else " " ++ pystrip o.verbosity_override)

/-- `PromptBuilder._reasoning_block`. -/
def _reasoning_block (o : PromptOptions) : String :=
  if o.reasoning_effort = "Default" then ""
  else "Reasoning effort: " ++ pyLower o.reasoning_effort ++ "."

/-- `PromptBuilder._agentic_controls`. -/
def _agentic_controls (o : PromptOptions) : String :=
  joinWith "\n"
    ([if o.eagerness = "Low" then eagerLowS
      else if o.eagerness = "High" then eagerHighS
      else eagerMedS]
      ++ (if o.include_tool_preamble then [toolPreambleS] else [])
      ++ (if o.include_progress_narration then [progressS] else [])
      ++ (if o.include_persistence then [persistenceS] else [])
      ++ (if o.include_tool_disambiguation then
            (if clamp_text o.tool_context = "" then []
             else [toolRulesHeaderS, clamp_text o.tool_context])
          else []))

/-- `PromptBuilder._planning_block`.  `self.o.planning_snippet or <default>`
is Python truthiness: the default sentence is used when the snippet is the
empty string. -/
def _planning_block (o : PromptOptions) : String :=
  if o.include_planning then
    "Planning:\n" ++
      clamp_text (if o.planning_snippet = "" then planningDefaultS else o.planning_snippet)
  else ""

/-- `PromptBuilder._coding_block`. -/
def _coding_block (o : PromptOptions) : String :=
  if o.coding_mode then
    joinWith "\n"
      ([codingModeS]
        ++ (if o.include_apply_patch_instr then [applyPatchS] else [])
        ++ (if o.include_tool_defs then [toolDefsS] else [])
        ++ (if clamp_text o.coding_notes = "" then [] else [clamp_text o.coding_notes]))
  else ""

/-- The two lines `enumerate(self.o.examples, 1)` produces per example pair. -/
def exampleLines (od cd : String) : Nat → List (String × String) → List String
  | _, [] => []
  | i, (u, a) :: rest =>
    ("Example " ++ toString i ++ " - user " ++ od ++ "\n" ++ clamp_text u ++ "\n" ++ cd)
      :: ("Example " ++ toString i ++ " - assistant " ++ od ++ "\n" ++ clamp_text a ++ "\n" ++ cd)
      :: exampleLines od cd (i + 1) rest

/-- `PromptBuilder._examples_block`. -/
def _examples_block (o : PromptOptions) : String :=
  if o.examples = [] then ""
  else
    joinWith "\n"
      ("Few-shot examples:" :: exampleLines (_delim o).1 (_delim o).2 1 o.examples)

/-- `PromptBuilder._appendix_block`. -/
def _appendix_block (o : PromptOptions) : String :=
  joinWith "\n"
    ((if o.include_swe_bench then [sweS] else [])
      ++ (if o.include_retail_min_reason then [retailS] else []))

/-- `PromptBuilder._meta_prompt`. -/
def _meta_prompt (o : PromptOptions) : String :=
  let od := (_delim o).1
  let cd := (_delim o).2
  let base := clamp_text o.meta_prompt
  let desired := clamp_text o.meta_desired
  let undesired := clamp_text o.meta_undesired
  joinWith "\n"
    [metaInstrS,
     (if desired = "" then "Desired behavior: (not provided)"
      else "Desired behavior: " ++ desired),
     (if undesired = "" then "Undesired behavior: (not provided)"
      else "Undesired behavior: " ++ undesired),
     "Prompt " ++ od ++ "\n" ++ base ++ "\n" ++ cd]

/-- The `parts` list assembled by the non-meta branch of
`PromptBuilder.build`, in source order. -/
def _parts (o : PromptOptions) : List String :=
  [_role_line o]
    ++ (if pystrip o.task = "" then []
        else ["Task " ++ (_delim o).1 ++ "\n" ++ clamp_text o.task ++ "\n" ++ (_delim o).2])
    ++ (if pystrip o.additional_context = "" then []
        else ["Context " ++ (_delim o).1 ++ "\n" ++ clamp_text o.additional_context ++ "\n" ++ (_delim o).2])
    ++ stripPieces
        [_audience_line o, _constraints_block o, _verbosity_block o,
         _reasoning_block o, _agentic_controls o, _planning_block o,
         _coding_block o, _examples_block o, _formatting_block o,
         _appendix_block o]
    ++ (if o.ask_brief_rationale then [rationaleS] else [])

/-- The local `"\n\n".join(p for p in parts if p.strip())` of the non-meta
branch of `PromptBuilder.build`. -/
def _joined (o : PromptOptions) : String :=
  joinWith "\n\n" (keepNonempty (_parts o))

/-- `PromptBuilder.build`. -/
def build (o : PromptOptions) : String :=
  if o.meta_mode then
    clamp_text (replace_vars (_meta_prompt o) o.«variables»)
  else
    replace_vars (clamp_text (_joined o)) o.«variables»

/-- A flat settings document: every `PromptOptions` field optionally
present.  `MainWindow._load_settings` reads such a document and calls
`PromptOptions(**data)`, so a present key overrides the dataclass default
and an absent key leaves it. -/
structure SettingsDoc where
  role : Option String := none
  custom_role : Option String := none
  task : Option String := none
  audience : Option String := none
  constraints : Option String := none
  delimiters : Option String := none
  output_format : Option String := none
  json_schema : Option String := none
  additional_context : Option String := none
  eagerness : Option String := none
  reasoning_effort : Option String := none
  include_tool_preamble : Option Bool := none
  include_persistence : Option Bool := none
  include_progress_narration : Option Bool := none
  include_tool_disambiguation : Option Bool := none
  tool_context : Option String := none
  coding_mode : Option Bool := none
  include_planning : Option Bool := none
  planning_snippet : Option String := none
  include_apply_patch_instr : Option Bool := none
  include_tool_defs : Option Bool := none
  coding_notes : Option String := none
  verbosity : Option String := none
  verbosity_override : Option String := none
  markdown_guidance : Option Bool := none
  ask_brief_rationale : Option Bool := none
  meta_mode : Option Bool := none
  meta_prompt : Option String := none
  meta_desired : Option String := none
  meta_undesired : Option String := none
  examples : Option (List (String × String)) := none
  «variables» : Option (List (String × String)) := none
  include_swe_bench : Option Bool := none
  include_retail_min_reason : Option Bool := none

/-- `PromptOptions(**data)` as performed by `MainWindow._load_settings`:
each key present in the document supplies the field, each absent key falls
back to the dataclass default. -/
def optionsFromDoc (d : SettingsDoc) : PromptOptions where
  role := d.role.getD "General assistant"
  custom_role := d.custom_role.getD ""
  task := d.task.getD ""
  audience := d.audience.getD ""
  constraints := d.constraints.getD ""
  delimiters := d.delimiters.getD "triple backticks"
  output_format := d.output_format.getD "Plain text"
  json_schema := d.json_schema.getD ""
  additional_context := d.additional_context.getD ""
  eagerness := d.eagerness.getD "Medium"
  reasoning_effort := d.reasoning_effort.getD "Default"
  include_tool_preamble := d.include_tool_preamble.getD false
  include_persistence := d.include_persistence.getD false
  include_progress_narration := d.include_progress_narration.getD false
  include_tool_disambiguation := d.include_tool_disambiguation.getD false
  tool_context := d.tool_context.getD ""
  coding_mode := d.coding_mode.getD false
  include_planning := d.include_planning.getD false
  planning_snippet := d.planning_snippet.getD ""
  include_apply_patch_instr := d.include_apply_patch_instr.getD false
  include_tool_defs := d.include_tool_defs.getD false
  coding_notes := d.coding_notes.getD ""
  verbosity := d.verbosity.getD "Default"
  verbosity_override := d.verbosity_override.getD ""
  markdown_guidance := d.markdown_guidance.getD false
  ask_brief_rationale := d.ask_brief_rationale.getD false
  meta_mode := d.meta_mode.getD false
  meta_prompt := d.meta_prompt.getD ""
  meta_desired := d.meta_desired.getD ""
  meta_undesired := d.meta_undesired.getD ""
  examples := d.examples.getD []
  «variables» := d.«variables».getD []
  include_swe_bench := d.include_swe_bench.getD false
  include_retail_min_reason := d.include_retail_min_reason.getD false

/-- The all-absent settings document. -/
def emptyDoc : SettingsDoc := {}

/-- Substring search: the remainder of the haystack after the first
occurrence of `needle`, or `none` when `needle` does not occur. -/
def firstDropAfter (needle : List Char) : List Char → Option (List Char)
  | [] => none
  | c :: cs =>
    if needle.isPrefixOf (c :: cs) then some ((c :: cs).drop needle.length)
    else firstDropAfter needle cs

/-- `containsInOrder hay needles` holds when each needle occurs in the
haystack, each strictly after the end of the previous one. -/
def containsInOrder (hay : List Char) : List String → Bool
  | [] => true
  | n :: ns =>
    match firstDropAfter n.data hay with
    | some rest => containsInOrder rest ns
    | none => false

/-! Normal form of `collapseAux`: `okNL seen l` says that, entered with
`seen` newlines already read in the current run, no newline run of `l` ever
exceeds two. `collapseAux` fixes exactly such lists. -/

/-- No newline run of `l` pushes the running count past two. -/
def okNL : Nat → List Char → Bool
  | _, [] => true
  | seen, c :: cs =>
    if c = '\n' then decide (seen < 2) && okNL (seen + 1) cs
    else okNL 0 cs

theorem okNL_mono : ∀ {l : List Char} {s1 s2 : Nat}, s1 ≤ s2 →
    okNL s2 l = true → okNL s1 l = true := by
  intro l
  induction l with
  | nil => intro s1 s2 _ _; rfl
  | cons c cs ih =>
    intro s1 s2 hle h
    simp only [okNL] at h ⊢
    by_cases hc : c = '\n'
    · rw [if_pos hc] at h ⊢
      simp only [Bool.and_eq_true, decide_eq_true_eq] at h ⊢
      exact ⟨by omega, ih (by omega) h.2⟩
    · rw [if_neg hc] at h ⊢
      exact h

theorem okNL_tail : ∀ {s : Nat} {c : Char} {cs : List Char},
    okNL s (c :: cs) = true → okNL 0 cs = true := by
  intro s c cs h
  simp only [okNL] at h
  by_cases hc : c = '\n'
  · rw [if_pos hc] at h
    simp only [Bool.and_eq_true] at h
    exact okNL_mono (Nat.zero_le _) h.2
  · rw [if_neg hc] at h
    exact h

theorem collapseAux_fix : ∀ {l : List Char} {s : Nat},
    okNL s l = true → collapseAux s l = l := by
  intro l
  induction l with
  | nil => intro s _; rfl
  | cons c cs ih =>
    intro s h
    simp only [okNL] at h
    simp only [collapseAux]
    by_cases hc : c = '\n'
    · rw [if_pos hc] at h ⊢
      simp only [Bool.and_eq_true, decide_eq_true_eq] at h
      rw [if_neg (by omega), ih h.2]
    · rw [if_neg hc] at h ⊢
      rw [ih h]

theorem okNL_collapseAux : ∀ (l : List Char) (s : Nat),
    okNL (min s 2) (collapseAux s l) = true := by
  intro l
  induction l with
  | nil => intro s; rfl
  | cons c cs ih =>
    intro s
    simp only [collapseAux]
    by_cases hc : c = '\n'
    · subst hc
      rw [if_pos rfl]
      by_cases h2 : 2 ≤ s
      · rw [if_pos h2]
        have e : min s 2 = min (s + 1) 2 := by omega
        rw [e]
        exact ih (s + 1)
      · rw [if_neg h2]
        simp only [okNL]
        rw [if_pos trivial, show min s 2 = s from by omega]
        simp only [Bool.and_eq_true, decide_eq_true_eq]
        refine ⟨by omega, ?_⟩
        have h := ih (s + 1)
        rwa [show min (s + 1) 2 = s + 1 from by omega] at h
    · rw [if_neg hc]
      simp only [okNL]
      rw [if_neg hc]
      simpa using ih 0

theorem okNL_append_left : ∀ {x y : List Char} {s : Nat},
    okNL s (x ++ y) = true → okNL s x = true := by
  intro x
  induction x with
  | nil => intro y s _; rfl
  | cons c cs ih =>
    intro y s h
    simp only [List.cons_append, okNL] at h ⊢
    by_cases hc : c = '\n'
    · rw [if_pos hc] at h ⊢
      simp only [Bool.and_eq_true] at h ⊢
      exact ⟨h.1, ih h.2⟩
    · rw [if_neg hc] at h ⊢
      exact ih h

theorem okNL_dropWhile (q : Char → Bool) : ∀ {l : List Char},
    okNL 0 l = true → okNL 0 (List.dropWhile q l) = true := by
  intro l
  induction l with
  | nil => intro h; exact h
  | cons c cs ih =>
    intro h
    rw [List.dropWhile_cons]
    by_cases hq : q c = true
    · rw [if_pos hq]
      exact ih (okNL_tail h)
    · rw [if_neg hq]
      exact h

theorem dw_head_false {q : Char → Bool} : ∀ {l c t},
    List.dropWhile q l = c :: t → q c = false := by
  intro l
  induction l with
  | nil => intro c t h; simp [List.dropWhile] at h
  | cons a as ih =>
    intro c t h
    rw [List.dropWhile_cons] at h
    by_cases hq : q a = true
    · rw [if_pos hq] at h
      exact ih h
    · rw [if_neg hq] at h
      injection h with h1 _
      rw [← h1]
      exact Bool.not_eq_true _ ▸ Bool.of_not_eq_true hq

theorem tw_dw (q : Char → Bool) (l : List Char) :
    List.takeWhile q l ++ List.dropWhile q l = l := by
  induction l with
  | nil => rfl
  | cons a as ih =>
    rw [List.takeWhile_cons, List.dropWhile_cons]
    by_cases hq : q a = true
    · rw [if_pos hq, if_pos hq, List.cons_append, ih]
    · rw [if_neg hq, if_neg hq, List.nil_append]

theorem pyStripL_decomp (l : List Char) :
    List.dropWhile pyIsSpace l =
      pyStripL l ++ (List.takeWhile pyIsSpace (List.dropWhile pyIsSpace l).reverse).reverse := by
  have h := congrArg List.reverse (tw_dw pyIsSpace (List.dropWhile pyIsSpace l).reverse)
  rw [List.reverse_append, List.reverse_reverse] at h
  exact h.symm

theorem pyStripL_head_false {l : List Char} {c : Char} {t : List Char}
    (h : pyStripL l = c :: t) : pyIsSpace c = false := by
  have hd := pyStripL_decomp l
  rw [h, List.cons_append] at hd
  exact dw_head_false hd

theorem pyStripL_rev (l : List Char) :
    (pyStripL l).reverse = List.dropWhile pyIsSpace (List.dropWhile pyIsSpace l).reverse := by
  simp [pyStripL]

theorem pyStripL_idem (l : List Char) : pyStripL (pyStripL l) = pyStripL l := by
  have h1 : List.dropWhile pyIsSpace (pyStripL l) = pyStripL l := by
    cases hme : pyStripL l with
    | nil => rfl
    | cons c t =>
      have hc := pyStripL_head_false hme
      rw [List.dropWhile_cons, hc]
      simp
  have h2 : List.dropWhile pyIsSpace (pyStripL l).reverse = (pyStripL l).reverse := by
    rw [pyStripL_rev]
    cases hme : List.dropWhile pyIsSpace (List.dropWhile pyIsSpace l).reverse with
    | nil => rfl
    | cons c t =>
      have hc := dw_head_false hme
      rw [List.dropWhile_cons, hc]
      simp
  show ((List.dropWhile pyIsSpace (pyStripL l)).reverse.dropWhile pyIsSpace).reverse = pyStripL l
  rw [h1, h2, List.reverse_reverse]

theorem okNL_pyStripL {l : List Char} (h : okNL 0 l = true) :
    okNL 0 (pyStripL l) = true := by
  have h1 := okNL_dropWhile pyIsSpace h
  rw [pyStripL_decomp l] at h1
  exact okNL_append_left h1

/-- The two components of every `clamp_text` result: it contains no run of
three or more newlines, and it is fixed by `str.strip()`. -/
theorem clamp_text_normal (s : String) :
    okNL 0 (clamp_text s).data = true ∧ pyStripL (clamp_text s).data = (clamp_text s).data := by
  have h0 : okNL 0 (collapseAux 0 s.data) = true := by
    simpa using okNL_collapseAux s.data 0
  exact ⟨okNL_pyStripL h0, pyStripL_idem _⟩

/-- C5: normalization is idempotent. -/
theorem clamp_text_idempotent (s : String) : clamp_text (clamp_text s) = clamp_text s := by
  show String.mk (pyStripL (collapseAux 0 (pyStripL (collapseAux 0 s.data)))) = _
  have h0 : okNL 0 (collapseAux 0 s.data) = true := by
    simpa using okNL_collapseAux s.data 0
  rw [collapseAux_fix (okNL_pyStripL h0), pyStripL_idem]
  rfl

/-! Characterization of the `replace_vars` scanner. -/

theorem str_eta (s : String) : String.mk s.data = s := by
  cases s
  rfl

theorem str_data_append (a b : String) : (a ++ b).data = a.data ++ b.data := by
  cases a
  cases b
  rfl

theorem rvAux_no_brace (m : List (String × String)) :
    ∀ (p rest : List Char), (∀ c ∈ p, c ≠ '\x7b') →
      rvAux m none (p ++ rest) = p ++ rvAux m none rest := by
  intro p
  induction p with
  | nil => intro rest _; rfl
  | cons c p' ih =>
    intro rest h
    have hc : ¬ c = '\x7b' := h c (List.mem_cons_self c p')
    simp only [List.cons_append, rvAux, List.append_eq]
    rw [if_neg hc, ih rest (fun d hd => h d (List.mem_cons_of_mem c hd))]

theorem rvAux_scan_ident (m : List (String × String)) :
    ∀ (k : List Char) (acc rest : List Char), (∀ c ∈ k, isIdentChar c = true) →
      rvAux m (some acc) (k ++ rest) = rvAux m (some (k.reverse ++ acc)) rest := by
  intro k
  induction k with
  | nil => intro acc rest _; rfl
  | cons c k' ih =>
    intro acc rest h
    simp only [List.cons_append, rvAux, List.append_eq]
    rw [if_pos (h c (List.mem_cons_self c k'))]
    rw [ih (c :: acc) rest (fun d hd => h d (List.mem_cons_of_mem c hd))]
    simp [List.append_assoc]

theorem rvAux_open (m : List (String × String)) (l : List Char) :
    rvAux m none ('\x7b' :: l) = rvAux m (some []) l := by
  simp [rvAux]

theorem rvAux_close_some (m : List (String × String)) (acc rest : List Char)
    (v : String) (hacc : acc ≠ [])
    (hv : getVar m (String.mk acc.reverse) = some v) :
    rvAux m (some acc) ('\x7d' :: rest) = v.data ++ rvAux m none rest := by
  simp only [rvAux]
  rw [if_pos trivial, if_neg hacc, hv]
  rw [if_neg (show ¬ isIdentChar '\x7d' = true from by decide)]

theorem rvAux_close_none (m : List (String × String)) (acc rest : List Char)
    (hacc : acc ≠ [])
    (hv : getVar m (String.mk acc.reverse) = none) :
    rvAux m (some acc) ('\x7d' :: rest) =
      '\x7b' :: (acc.reverse ++ '\x7d' :: rvAux m none rest) := by
  simp only [rvAux]
  rw [if_pos trivial, if_neg hacc, hv]
  rw [if_neg (show ¬ isIdentChar '\x7d' = true from by decide)]

/-- C3: variable substitution is literal, single-pass and non-failing.
For any text decomposed as `p ++ "{" ++ k ++ "}" ++ s` with `p` free of
opening braces and `k` a nonempty `[A-Za-z0-9_]+` identifier: when `k` is a
key of the mapping the whole token (braces included) is replaced by the
mapped value inserted verbatim — scanning continues at `s`, so the inserted
value is never re-scanned — and when `k` is not a key the token passes
through completely unchanged, braces included.  No input fails. -/
theorem replace_vars_characterization (m : List (String × String)) (p k s : String)
    (hp : ∀ c ∈ p.data, c ≠ '\x7b') (hk0 : k.data ≠ [])
    (hk : ∀ c ∈ k.data, isIdentChar c = true) :
    (∀ v, getVar m k = some v →
        replace_vars (p ++ "\x7b" ++ k ++ "\x7d" ++ s) m = p ++ v ++ replace_vars s m) ∧
    (getVar m k = none →
        replace_vars (p ++ "\x7b" ++ k ++ "\x7d" ++ s) m =
          p ++ ("\x7b" ++ k ++ "\x7d") ++ replace_vars s m) := by
  have hacc : k.data.reverse ≠ [] := by
    intro h
    exact hk0 (by simpa using congrArg List.reverse h)
  have hdata : (p ++ "\x7b" ++ k ++ "\x7d" ++ s).data =
      p.data ++ ('\x7b' :: (k.data ++ ('\x7d' :: s.data))) := by
    simp only [str_data_append, List.append_assoc]
    rfl
  have hscan : rvAux m none (p ++ "\x7b" ++ k ++ "\x7d" ++ s).data =
      p.data ++ rvAux m (some k.data.reverse) ('\x7d' :: s.data) := by
    rw [hdata, rvAux_no_brace m p.data _ hp, rvAux_open,
      rvAux_scan_ident m k.data [] _ hk, List.append_nil]
  have hkey : String.mk k.data.reverse.reverse = k := by
    rw [List.reverse_reverse, str_eta]
  constructor
  · intro v hv
    show String.mk (rvAux m none (p ++ "\x7b" ++ k ++ "\x7d" ++ s).data) = _
    rw [hscan, rvAux_close_some m _ _ v hacc (by rw [hkey]; exact hv)]
    show _ = String.mk ((p ++ v ++ replace_vars s m).data)
    rw [str_data_append, str_data_append]
    simp [replace_vars, List.append_assoc]
  · intro hv
    show String.mk (rvAux m none (p ++ "\x7b" ++ k ++ "\x7d" ++ s).data) = _
    rw [hscan, rvAux_close_none m _ _ hacc (by rw [hkey]; exact hv)]
    show _ = String.mk ((p ++ ("\x7b" ++ k ++ "\x7d") ++ replace_vars s m).data)
    simp only [str_data_append]
    simp [replace_vars, List.append_assoc]

/-- Witness for C3 at the spec's own instances: the mapping `X ↦ "{Y}"`
applied to `"{X}"` yields `"{Y}"` with the inserted value not re-scanned
(`Y` is also a key), and `"{UNBOUND}"` under a mapping without that key
passes through unchanged. -/
theorem replace_vars_characterization_witness :
    replace_vars ("" ++ "\x7b" ++ "X" ++ "\x7d" ++ "") [("X", "\x7bY\x7d"), ("Y", "Z")] =
      "" ++ "\x7bY\x7d" ++ replace_vars "" [("X", "\x7bY\x7d"), ("Y", "Z")] ∧
    replace_vars ("" ++ "\x7b" ++ "UNBOUND" ++ "\x7d" ++ "") [("A", "b")] =
      "" ++ ("\x7b" ++ "UNBOUND" ++ "\x7d") ++ replace_vars "" [("A", "b")] ∧
    replace_vars "\x7bX\x7d" [("X", "\x7bY\x7d"), ("Y", "Z")] = "\x7bY\x7d" ∧
    replace_vars "\x7bUNBOUND\x7d" [] = "\x7bUNBOUND\x7d" :=
  ⟨(replace_vars_characterization [("X", "\x7bY\x7d"), ("Y", "Z")] "" "X" ""
      (by decide) (by decide) (by decide)).1 "\x7bY\x7d" (by decide),
   (replace_vars_characterization [("A", "b")] "" "UNBOUND" ""
      (by decide) (by decide) (by decide)).2 (by decide),
   by decide, by decide⟩

/-! Concrete records used by individual claims. -/

/-- The C8 scenario record. -/
def codingScenario : PromptOptions :=
  { defaultOptions with
      role := "Coding assistant"
      task := "Fix the failing test"
      coding_mode := true
      include_apply_patch_instr := true }

/-- C1 counterexample: on the default record `build` does NOT return the
role line alone, because the agentic-controls block always contributes its
eagerness sentence. -/
theorem build_default_not_role_line_only :
    build defaultOptions ≠ "You are General assistant." := by
  decide

/-- C1 as amended: on the default record `build` returns the role line
followed by a blank line and the medium-eagerness sentence, and nothing
else. -/
theorem build_default_eq_role_and_eagerness :
    build defaultOptions =
      "You are General assistant." ++ "\n\n" ++ eagerMedS := by
  decide

set_option maxRecDepth 40000 in
/-- C8: in the coding scenario (role "Coding assistant", non-empty task,
backtick fences, coding mode on, apply-patch instruction on) the output is
the role line, then the task text wrapped in backtick fences under the
fixed `Task` header, then the agentic eagerness sentence, then the
coding-mode sentence immediately followed by the patch-format instruction —
so the task block, the coding-mode sentence and the patch instruction
appear in that order. -/
theorem coding_scenario_order :
    build codingScenario =
      "You are Coding assistant." ++ "\n\n" ++
        ("Task " ++ "```" ++ "\n" ++ "Fix the failing test" ++ "\n" ++ "```") ++ "\n\n" ++
        eagerMedS ++ "\n\n" ++ (codingModeS ++ "\n" ++ applyPatchS) ∧
    containsInOrder (build codingScenario).data
      ["Task ```" ++ "\n" ++ "Fix the failing test" ++ "\n" ++ "```",
       codingModeS, applyPatchS] = true := by
  constructor
  · decide
  · decide

/-! Congruence helpers: which fields each builder fragment reads. -/

theorem meta_prompt_congr {o₁ o₂ : PromptOptions}
    (hd : o₁.delimiters = o₂.delimiters) (hb : o₁.meta_prompt = o₂.meta_prompt)
    (hde : o₁.meta_desired = o₂.meta_desired) (hu : o₁.meta_undesired = o₂.meta_undesired) :
    _meta_prompt o₁ = _meta_prompt o₂ := by
  simp only [_meta_prompt, _delim, hd, hb, hde, hu]

set_option maxRecDepth 40000 in
/-- C2 counterexample: two records that are both in meta mode and agree on
all three meta fields (prompt, desired, undesired) but produce different
output, because the meta path also reads the delimiter style. -/
theorem meta_agreement_insufficient :
    ({ defaultOptions with meta_mode := true } : PromptOptions).meta_mode = true ∧
    ({ defaultOptions with meta_mode := true, delimiters := "XML tags" } : PromptOptions).meta_mode = true ∧
    ({ defaultOptions with meta_mode := true } : PromptOptions).meta_prompt =
      ({ defaultOptions with meta_mode := true, delimiters := "XML tags" } : PromptOptions).meta_prompt ∧
    ({ defaultOptions with meta_mode := true } : PromptOptions).meta_desired =
      ({ defaultOptions with meta_mode := true, delimiters := "XML tags" } : PromptOptions).meta_desired ∧
    ({ defaultOptions with meta_mode := true } : PromptOptions).meta_undesired =
      ({ defaultOptions with meta_mode := true, delimiters := "XML tags" } : PromptOptions).meta_undesired ∧
    build { defaultOptions with meta_mode := true } ≠
      build { defaultOptions with meta_mode := true, delimiters := "XML tags" } := by
  decide

/-- C2 as amended: in meta mode the output depends only on the delimiter
style, the three meta fields and the variable mapping; all remaining
fields — e.g. coding mode or the examples list — are ignored. -/
theorem meta_mode_depends_only_on_meta_fields (o₁ o₂ : PromptOptions)
    (h1 : o₁.meta_mode = true) (h2 : o₂.meta_mode = true)
    (hd : o₁.delimiters = o₂.delimiters) (hb : o₁.meta_prompt = o₂.meta_prompt)
    (hde : o₁.meta_desired = o₂.meta_desired) (hu : o₁.meta_undesired = o₂.meta_undesired)
    (hv : o₁.«variables» = o₂.«variables») :
    build o₁ = build o₂ := by
  simp only [build, h1, h2, if_true]
  rw [meta_prompt_congr hd hb hde hu, hv]

/-- Witness for C2: toggling `coding_mode` and the examples list of a
meta-mode record leaves the output unchanged. -/
theorem meta_mode_depends_only_on_meta_fields_witness :
    build { defaultOptions with
              meta_mode := true, coding_mode := true, examples := [("u", "a")] } =
      build { defaultOptions with meta_mode := true } :=
  meta_mode_depends_only_on_meta_fields _ _ rfl rfl rfl rfl rfl rfl rfl

/-- A meta-mode record whose variable mapping inserts text with a long
newline run into the meta-prompt wrapper. -/
def metaSubstRecord : PromptOptions :=
  { defaultOptions with
      meta_mode := true
      meta_desired := "\x7bX\x7d"
      «variables» := [("X", "a\n\n\n\nb")] }

set_option maxRecDepth 80000 in
/-- C4 counterexample: in meta mode `build` is NOT substitution after
normalization.  The code substitutes first and normalizes afterwards, so a
substituted value containing a run of four newlines is collapsed, whereas
the claimed order would leave it intact. -/
theorem meta_build_not_subst_after_clamp :
    metaSubstRecord.meta_mode = true ∧
    build metaSubstRecord ≠
      replace_vars (clamp_text (_meta_prompt metaSubstRecord)) metaSubstRecord.«variables» := by
  decide

/-- C4 as amended: in non-meta mode the final steps of `build` are clamp
the joined output, then substitute, with no further normalization; in meta
mode the order is reversed — substitute into the composed meta prompt,
then clamp. -/
theorem build_pipeline_order (o : PromptOptions) :
    (o.meta_mode = false →
      build o = replace_vars (clamp_text (_joined o)) o.«variables») ∧
    (o.meta_mode = true →
      build o = clamp_text (replace_vars (_meta_prompt o) o.«variables»)) := by
  constructor
  · intro h
    simp [build, h]
  · intro h
    simp [build, h]

/-- Witness for C4 at the default record and its meta-mode variant. -/
theorem build_pipeline_order_witness :
    build defaultOptions =
      replace_vars (clamp_text (_joined defaultOptions)) defaultOptions.«variables» ∧
    build { defaultOptions with meta_mode := true } =
      clamp_text (replace_vars (_meta_prompt { defaultOptions with meta_mode := true })
        ({ defaultOptions with meta_mode := true } : PromptOptions).«variables») :=
  ⟨(build_pipeline_order defaultOptions).1 rfl,
   (build_pipeline_order { defaultOptions with meta_mode := true }).2 rfl⟩

theorem build_congr {o₁ o₂ : PromptOptions}
    (hm : o₁.meta_mode = o₂.meta_mode) (hv : o₁.«variables» = o₂.«variables»)
    (hmp : _meta_prompt o₁ = _meta_prompt o₂) (hp : _parts o₁ = _parts o₂) :
    build o₁ = build o₂ := by
  simp only [build, _joined, hm, hv, hmp, hp]

theorem parts_congr {o₁ o₂ : PromptOptions}
    (h1 : _role_line o₁ = _role_line o₂)
    (h2 : o₁.task = o₂.task)
    (h3 : o₁.additional_context = o₂.additional_context)
    (h4 : _delim o₁ = _delim o₂)
    (h5 : _audience_line o₁ = _audience_line o₂)
    (h6 : _constraints_block o₁ = _constraints_block o₂)
    (h7 : _verbosity_block o₁ = _verbosity_block o₂)
    (h8 : _reasoning_block o₁ = _reasoning_block o₂)
    (h9 : _agentic_controls o₁ = _agentic_controls o₂)
    (h10 : _planning_block o₁ = _planning_block o₂)
    (h11 : _coding_block o₁ = _coding_block o₂)
    (h12 : _examples_block o₁ = _examples_block o₂)
    (h13 : _formatting_block o₁ = _formatting_block o₂)
    (h14 : _appendix_block o₁ = _appendix_block o₂)
    (h15 : o₁.ask_brief_rationale = o₂.ask_brief_rationale) :
    _parts o₁ = _parts o₂ := by
  simp only [_parts, h1, h2, h3, h4, h5, h6, h7, h8, h9, h10, h11, h12, h13, h14, h15]

theorem meta_prompt_congr_delim {o₁ o₂ : PromptOptions}
    (hd : _delim o₁ = _delim o₂) (hb : o₁.meta_prompt = o₂.meta_prompt)
    (hde : o₁.meta_desired = o₂.meta_desired) (hu : o₁.meta_undesired = o₂.meta_undesired) :
    _meta_prompt o₁ = _meta_prompt o₂ := by
  simp only [_meta_prompt, hd, hb, hde, hu]

theorem delim_unknown (o : PromptOptions) (d : String)
    (h1 : d ≠ "triple backticks") (h2 : d ≠ "triple quotes") (h3 : d ≠ "XML tags") :
    _delim { o with delimiters := d } = ("```", "```") := by
  simp only [_delim]
  rw [if_neg h1, if_neg h2, if_neg h3]

theorem build_delim_invariant (o : PromptOptions) (d : String)
    (h1 : d ≠ "triple backticks") (h2 : d ≠ "triple quotes") (h3 : d ≠ "XML tags") :
    build { o with delimiters := d } = build { o with delimiters := "triple backticks" } := by
  have hd : _delim { o with delimiters := d } = _delim { o with delimiters := "triple backticks" } :=
    (delim_unknown o d h1 h2 h3).trans rfl
  exact build_congr rfl rfl
    (meta_prompt_congr_delim hd rfl rfl rfl)
    (parts_congr rfl rfl rfl hd rfl rfl rfl rfl rfl rfl rfl
      (by simp only [_examples_block, hd]) rfl rfl rfl)

/-- C6: delimiter resolution is a total function from style name to an
(open, close) pair: each of the three named styles maps to its pair, and
every other style string maps to the backtick-fence pair, so building with
an unrecognized delimiter style yields exactly the same output as building
with the backtick-fence style. -/
theorem delim_total_with_fallback :
    (∀ o : PromptOptions, o.delimiters = "triple backticks" → _delim o = ("```", "```")) ∧
    (∀ o : PromptOptions, o.delimiters = "triple quotes" → _delim o = ("\"\"\"", "\"\"\"")) ∧
    (∀ o : PromptOptions, o.delimiters = "XML tags" → _delim o = ("<content>", "</content>")) ∧
    (∀ (o : PromptOptions) (d : String),
      d ≠ "triple backticks" → d ≠ "triple quotes" → d ≠ "XML tags" →
        _delim { o with delimiters := d } = ("```", "```") ∧
        build { o with delimiters := d } = build { o with delimiters := "triple backticks" }) := by
  refine ⟨?_, ?_, ?_, ?_⟩
  · intro o h
    simp only [_delim, h]
    rfl
  · intro o h
    simp only [_delim, h]
    rfl
  · intro o h
    simp only [_delim, h]
    rfl
  · intro o d h1 h2 h3
    exact ⟨delim_unknown o d h1 h2 h3, build_delim_invariant o d h1 h2 h3⟩

/-- Witness for C6: the three named styles and the unrecognized style
"curly braces" at the default record. -/
theorem delim_total_with_fallback_witness :
    _delim { defaultOptions with delimiters := "triple backticks" } = ("```", "```") ∧
    _delim { defaultOptions with delimiters := "triple quotes" } = ("\"\"\"", "\"\"\"") ∧
    _delim { defaultOptions with delimiters := "XML tags" } = ("<content>", "</content>") ∧
    _delim { defaultOptions with delimiters := "curly braces" } = ("```", "```") ∧
    build { defaultOptions with delimiters := "curly braces" } =
      build { defaultOptions with delimiters := "triple backticks" } :=
  ⟨delim_total_with_fallback.1 _ rfl,
   delim_total_with_fallback.2.1 _ rfl,
   delim_total_with_fallback.2.2.1 _ rfl,
   (delim_total_with_fallback.2.2.2 _ "curly braces" (by decide) (by decide) (by decide)).1,
   (delim_total_with_fallback.2.2.2 _ "curly braces" (by decide) (by decide) (by decide)).2⟩

theorem agentic_unknown (o : PromptOptions) (e : String)
    (hL : e ≠ "Low") (hH : e ≠ "High") :
    _agentic_controls { o with eagerness := e } =
      _agentic_controls { o with eagerness := "Medium" } := by
  simp only [_agentic_controls]
  rw [if_neg hL, if_neg hH,
    if_neg (show ("Medium" : String) ≠ "Low" from by decide),
    if_neg (show ("Medium" : String) ≠ "High" from by decide)]

theorem build_eagerness_invariant (o : PromptOptions) (e : String)
    (hL : e ≠ "Low") (hH : e ≠ "High") :
    build { o with eagerness := e } = build { o with eagerness := "Medium" } :=
  build_congr rfl rfl rfl
    (parts_congr rfl rfl rfl rfl rfl rfl rfl rfl (agentic_unknown o e hL hH)
      rfl rfl rfl rfl rfl rfl)

theorem formatting_unknown (o : PromptOptions) (f : String)
    (h1 : f ≠ "Markdown") (h2 : f ≠ "JSON") :
    _formatting_block { o with output_format := f } =
      _formatting_block { o with output_format := "Plain text" } := by
  simp only [_formatting_block, eq_false h1, eq_false h2,
    eq_false (show ("Plain text" : String) ≠ "Markdown" from by decide),
    eq_false (show ("Plain text" : String) ≠ "JSON" from by decide),
    false_or, if_false]

theorem build_format_invariant (o : PromptOptions) (f : String)
    (h1 : f ≠ "Markdown") (h2 : f ≠ "JSON") :
    build { o with output_format := f } = build { o with output_format := "Plain text" } :=
  build_congr rfl rfl rfl
    (parts_congr rfl rfl rfl rfl rfl rfl rfl rfl rfl rfl rfl rfl
      (formatting_unknown o f h1 h2) rfl rfl)

/-- C7 counterexample: an unknown verbosity value does NOT fall through to
the "not set" (Default) branch — it changes the output, inserting a
"Verbosity: bogus." line that the default branch never produces. -/
theorem unknown_verbosity_not_defaulted :
    build { defaultOptions with verbosity := "Bogus" } ≠ build defaultOptions := by
  decide

/-- C7 as amended: `build` is total by construction and never raises.
Unknown delimiter styles resolve to backtick fences, unknown eagerness
values take the medium branch, and unknown output formats fall through to
no formatting block — in each case producing exactly the output of the
corresponding default.  But unknown verbosity and reasoning-effort values
do NOT fall through to their Default ("not set") branches: they are
formatted literally as `Verbosity: <lowercased value>.` and
`Reasoning effort: <lowercased value>.`. -/
theorem build_total_unknown_enum_behavior :
    (∀ (o : PromptOptions) (d : String),
      d ≠ "triple backticks" → d ≠ "triple quotes" → d ≠ "XML tags" →
        build { o with delimiters := d } = build { o with delimiters := "triple backticks" }) ∧
    (∀ (o : PromptOptions) (e : String), e ≠ "Low" → e ≠ "High" →
        build { o with eagerness := e } = build { o with eagerness := "Medium" }) ∧
    (∀ (o : PromptOptions) (f : String), f ≠ "Markdown" → f ≠ "JSON" →
        build { o with output_format := f } = build { o with output_format := "Plain text" }) ∧
    (∀ o : PromptOptions, o.verbosity ≠ "Default" →
        _verbosity_block o =
          "Verbosity: " ++ pyLower o.verbosity ++ "." ++
            (if pystrip o.verbosity_override = "" then ""
             else " " ++ pystrip o.verbosity_override)) ∧
    (∀ o : PromptOptions, o.reasoning_effort ≠ "Default" →
        _reasoning_block o = "Reasoning effort: " ++ pyLower o.reasoning_effort ++ ".") := by
  refine ⟨build_delim_invariant, build_eagerness_invariant, build_format_invariant, ?_, ?_⟩
  · intro o h
    simp only [_verbosity_block, if_neg h]
  · intro o h
    simp only [_reasoning_block, if_neg h]

/-- Witness for C7 at concrete unknown enum values. -/
theorem build_total_unknown_enum_behavior_witness :
    build { defaultOptions with delimiters := "angle brackets" } =
      build { defaultOptions with delimiters := "triple backticks" } ∧
    build { defaultOptions with eagerness := "Eager" } =
      build { defaultOptions with eagerness := "Medium" } ∧
    build { defaultOptions with output_format := "YAML" } =
      build { defaultOptions with output_format := "Plain text" } ∧
    _verbosity_block { defaultOptions with verbosity := "Bogus" } =
      "Verbosity: " ++ pyLower "Bogus" ++ "." ++
        (if pystrip "" = "" then "" else " " ++ pystrip "") ∧
    _reasoning_block { defaultOptions with reasoning_effort := "Bogus" } =
      "Reasoning effort: " ++ pyLower "Bogus" ++ "." :=
  ⟨build_total_unknown_enum_behavior.1 _ "angle brackets" (by decide) (by decide) (by decide),
   build_total_unknown_enum_behavior.2.1 _ "Eager" (by decide) (by decide),
   build_total_unknown_enum_behavior.2.2.1 _ "YAML" (by decide) (by decide),
   build_total_unknown_enum_behavior.2.2.2.1 _ (by decide),
   build_total_unknown_enum_behavior.2.2.2.2 _ (by decide)⟩

/-- C9: constructing an options record from a partial settings document
never fails and gives every absent field its dataclass default. -/
theorem load_missing_fields_default (d : SettingsDoc) :
    (d.role = none → (optionsFromDoc d).role = "General assistant") ∧
    (d.custom_role = none → (optionsFromDoc d).custom_role = "") ∧
    (d.task = none → (optionsFromDoc d).task = "") ∧
    (d.audience = none → (optionsFromDoc d).audience = "") ∧
    (d.constraints = none → (optionsFromDoc d).constraints = "") ∧
    (d.delimiters = none → (optionsFromDoc d).delimiters = "triple backticks") ∧
    (d.output_format = none → (optionsFromDoc d).output_format = "Plain text") ∧
    (d.json_schema = none → (optionsFromDoc d).json_schema = "") ∧
    (d.additional_context = none → (optionsFromDoc d).additional_context = "") ∧
    (d.eagerness = none → (optionsFromDoc d).eagerness = "Medium") ∧
    (d.reasoning_effort = none → (optionsFromDoc d).reasoning_effort = "Default") ∧
    (d.include_tool_preamble = none → (optionsFromDoc d).include_tool_preamble = false) ∧
    (d.include_persistence = none → (optionsFromDoc d).include_persistence = false) ∧
    (d.include_progress_narration = none → (optionsFromDoc d).include_progress_narration = false) ∧
    (d.include_tool_disambiguation = none → (optionsFromDoc d).include_tool_disambiguation = false) ∧
    (d.tool_context = none → (optionsFromDoc d).tool_context = "") ∧
    (d.coding_mode = none → (optionsFromDoc d).coding_mode = false) ∧
    (d.include_planning = none → (optionsFromDoc d).include_planning = false) ∧
    (d.planning_snippet = none → (optionsFromDoc d).planning_snippet = "") ∧
    (d.include_apply_patch_instr = none → (optionsFromDoc d).include_apply_patch_instr = false) ∧
    (d.include_tool_defs = none → (optionsFromDoc d).include_tool_defs = false) ∧
    (d.coding_notes = none → (optionsFromDoc d).coding_notes = "") ∧
    (d.verbosity = none → (optionsFromDoc d).verbosity = "Default") ∧
    (d.verbosity_override = none → (optionsFromDoc d).verbosity_override = "") ∧
    (d.markdown_guidance = none → (optionsFromDoc d).markdown_guidance = false) ∧
    (d.ask_brief_rationale = none → (optionsFromDoc d).ask_brief_rationale = false) ∧
    (d.meta_mode = none → (optionsFromDoc d).meta_mode = false) ∧
    (d.meta_prompt = none → (optionsFromDoc d).meta_prompt = "") ∧
    (d.meta_desired = none → (optionsFromDoc d).meta_desired = "") ∧
    (d.meta_undesired = none → (optionsFromDoc d).meta_undesired = "") ∧
    (d.examples = none → (optionsFromDoc d).examples = []) ∧
    (d.«variables» = none → (optionsFromDoc d).«variables» = []) ∧
    (d.include_swe_bench = none → (optionsFromDoc d).include_swe_bench = false) ∧
    (d.include_retail_min_reason = none → (optionsFromDoc d).include_retail_min_reason = false) := by
  refine ⟨?_, ?_, ?_, ?_, ?_, ?_, ?_, ?_, ?_, ?_, ?_, ?_, ?_, ?_, ?_, ?_, ?_, ?_,
    ?_, ?_, ?_, ?_, ?_, ?_, ?_, ?_, ?_, ?_, ?_, ?_, ?_, ?_, ?_, ?_⟩ <;>
    (intro h; simp [optionsFromDoc, h])

/-- Witness for C9: on the all-absent document every field of the loaded
record is the dataclass default, i.e. the loaded record is the default
record. -/
theorem load_missing_fields_default_witness :
    (optionsFromDoc emptyDoc).role = "General assistant" ∧
    (optionsFromDoc emptyDoc).delimiters = "triple backticks" ∧
    (optionsFromDoc emptyDoc).coding_mode = false ∧
    (optionsFromDoc emptyDoc).examples = [] ∧
    (optionsFromDoc emptyDoc).«variables» = [] :=
  ⟨(load_missing_fields_default emptyDoc).1 rfl,
   (load_missing_fields_default emptyDoc).2.2.2.2.2.1 rfl,
   (load_missing_fields_default emptyDoc).2.2.2.2.2.2.2.2.2.2.2.2.2.2.2.2.1 rfl,
   (load_missing_fields_default emptyDoc).2.2.2.2.2.2.2.2.2.2.2.2.2.2.2.2.2.2.2.2.2.2.2.2.2.2.2.2.2.2.1 rfl,
   (load_missing_fields_default emptyDoc).2.2.2.2.2.2.2.2.2.2.2.2.2.2.2.2.2.2.2.2.2.2.2.2.2.2.2.2.2.2.2.1 rfl⟩

/-- C10: in meta mode the output is still post-processed like the normal
output — the composed meta prompt undergoes the variable-substitution pass
and a final normalization, so the result contains no run of three or more
newlines (`okNL 0`) and is fixed by `str.strip()` (no leading or trailing
whitespace). -/
theorem meta_output_normalized (o : PromptOptions) (h : o.meta_mode = true) :
    build o = clamp_text (replace_vars (_meta_prompt o) o.«variables») ∧
    okNL 0 (build o).data = true ∧
    pyStripL (build o).data = (build o).data := by
  have hb : build o = clamp_text (replace_vars (_meta_prompt o) o.«variables») := by
    simp [build, h]
  refine ⟨hb, ?_, ?_⟩
  · rw [hb]
    exact (clamp_text_normal _).1
  · rw [hb]
    exact (clamp_text_normal _).2

/-- Witness for C10 at a concrete meta-mode record with a placeholder and
a sloppy variable value. -/
theorem meta_output_normalized_witness :
    build metaSubstRecord =
      clamp_text (replace_vars (_meta_prompt metaSubstRecord) metaSubstRecord.«variables») ∧
    okNL 0 (build metaSubstRecord).data = true ∧
    pyStripL (build metaSubstRecord).data = (build metaSubstRecord).data :=
  meta_output_normalized metaSubstRecord rfl
